import Mathlib

set_option autoImplicit false

/-!
Shallow embedding of `src/ext/wasm-runtime/runtime/src/lib.rs` (the fivem
WASM script runtime).  The wasmtime execution engine is an external
collaborator: a compiled/instantiated guest is represented abstractly as a
`Guest σ` — a record of the guest's (optional) exported functions over an
abstract guest-store state `σ`, together with raw linear-memory access.
Every host-side function of `lib.rs` is translated directly; each call the
host makes into the guest is additionally recorded in a `GEvent` trace so
that allocation/free counting properties can be stated.
-/

namespace WasmRt

/-- Byte buffers crossing the host/guest boundary. -/
abbrev Bytes := List Nat

/-- Names of the guest exports the host invokes (the `CFX_*` constants in
`lib.rs`). -/
inductive ExpName where
  | start
  | onEvent
  | onTick
  | callRef
  | alloc
  | free
  | duplicateRef
  | removeRef
  deriving DecidableEq, Repr

/-- One host→guest call, as recorded in the instrumentation trace:
an invocation of the guest allocator (`__cfx_alloc`), of the guest
deallocator (`__cfx_free`), or of another guest export with the listed
integer arguments. -/
inductive GEvent where
  | mallocCall (size align : Nat)
  | freeCall (offset len align : Nat)
  | exportCall (name : ExpName) (args : List Nat)
  deriving DecidableEq, Repr

/-- Host-side errors (`anyhow::Error` values in the source; only their
presence matters, so they are a small enumeration). -/
inductive Err where
  | noMemory
  | noExport (e : ExpName)
  | trap (e : ExpName)
  | memWriteFail
  | instantiateFail
  deriving DecidableEq, Repr

/-- An instantiated guest module, as exposed by the execution engine:
each export the host may look up is `some` function on the guest state `σ`
when the guest provides it (a `get_func` / `get_typed_func` success) and
`none` otherwise.  A guest function returns the updated state paired with
`some` result, or with `none` when the call traps.  `readByte`/`memWrite`
give raw access to the guest linear memory (`memWrite` returns `false`
when the write fails, as wasmtime's `Memory::write` can). -/
structure Guest (σ : Type) where
  malloc : Option (σ → Nat → Nat → σ × Option Nat)
  free : Option (σ → Nat → Nat → Nat → σ × Option Unit)
  callRef : Option (σ → Nat → Nat → Nat → σ × Option Nat)
  onEvent : Option (σ → Nat → Nat → Nat → Nat → σ × Option Unit)
  onTick : Option (σ → σ × Option Unit)
  start : Option (σ → σ × Option Unit)
  dupRef : Option (σ → Nat → σ × Option Nat)
  removeRef : Option (σ → Nat → σ × Option Nat)
  hasMemory : Bool
  readByte : σ → Nat → Nat
  memWrite : σ → Nat → Bytes → σ × Bool
  memSize : σ → Nat

/-- The `EventAlloc` cache of `lib.rs`: three (guest offset, byte length)
pairs for the name/args/source scratch buffers. -/
structure EventAlloc where
  name : Nat × Nat
  args : Nat × Nat
  source : Nat × Nat
  deriving DecidableEq, Repr

/-- `EventAlloc::default()`: all three regions uninitialized (offset 0). -/
def EventAlloc.default : EventAlloc := ⟨(0, 0), (0, 0), (0, 0)⟩

/-- The `ScriptModule` of `lib.rs`: the instantiated guest (standing for
`store`, `instance`, `on_event` and `memory` together) plus its current
store state and the `event_allocs` cache. -/
structure ScriptModule (σ : Type) where
  guest : Guest σ
  st : σ
  event_allocs : EventAlloc

/-- Result of a marshaling-layer operation: the trace of guest calls made,
the module afterwards (guest state and cache updated), and the host-level
result. -/
structure Out (σ α : Type) where
  trace : List GEvent
  m : ScriptModule σ
  res : Except Err α

/-- `ScriptModule::alloc_bytes`: look up `__cfx_alloc`, call it with
`(len, 1)`, write the payload at the returned offset, and return
`(offset, len)`. -/
def alloc_bytes {σ : Type} (m : ScriptModule σ) (bytes : Bytes) : Out σ (Nat × Nat) :=
  match m.guest.malloc with
  | none => ⟨[], m, .error (.noExport .alloc)⟩
  | some mallocFn =>
    let r := mallocFn m.st bytes.length 1
    let m1 := { m with st := r.1 }
    match r.2 with
    | none => ⟨[.mallocCall bytes.length 1], m1, .error (.trap .alloc)⟩
    | some data_ptr =>
      let w := m.guest.memWrite r.1 data_ptr bytes
      let m2 := { m1 with st := w.1 }
      if w.2 then ⟨[.mallocCall bytes.length 1], m2, .ok (data_ptr, bytes.length)⟩
      else ⟨[.mallocCall bytes.length 1], m2, .error .memWriteFail⟩

/-- `ScriptModule::free_bytes`: look up `__cfx_free` and call it with
`(offset, length, 1)`. -/
def free_bytes {σ : Type} (m : ScriptModule σ) (p : Nat × Nat) : Out σ Unit :=
  match m.guest.free with
  | none => ⟨[], m, .error (.noExport .free)⟩
  | some freeFn =>
    let r := freeFn m.st p.1 p.2 1
    let m1 := { m with st := r.1 }
    match r.2 with
    | none => ⟨[.freeCall p.1 p.2 1], m1, .error (.trap .free)⟩
    | some _ => ⟨[.freeCall p.1 p.2 1], m1, .ok ()⟩

/-- `CStr::to_bytes_with_nul`: the C string's bytes with the trailing NUL. -/
def toBytesWithNul (s : Bytes) : Bytes := s ++ [0]

/-- `ScriptModule::copy_event_name`: reuse the cached name buffer when it
is allocated and large enough, otherwise allocate a fresh buffer and free
the old one.  (As in the source, the `event_allocs` cache entry is not
updated on the allocate path.) -/
def copy_event_name {σ : Type} (m : ScriptModule σ) (event_name : Bytes) : Out σ (Nat × Nat) :=
  let bytes := toBytesWithNul event_name
  let name := m.event_allocs.name
  if name.1 = 0 ∨ name.2 < bytes.length then
    let o := alloc_bytes m bytes
    match o.res with
    | .error e => ⟨o.trace, o.m, .error e⟩
    | .ok new =>
      if name.1 ≠ 0 then
        let o2 := free_bytes o.m name
        match o2.res with
        | .error e => ⟨o.trace ++ o2.trace, o2.m, .error e⟩
        | .ok _ => ⟨o.trace ++ o2.trace, o2.m, .ok new⟩
      else ⟨o.trace, o.m, .ok new⟩
  else
    let w := m.guest.memWrite m.st name.1 bytes
    let m1 := { m with st := w.1 }
    if w.2 then ⟨[], m1, .ok (name.1, bytes.length)⟩
    else ⟨[], m1, .error .memWriteFail⟩

/-- `ScriptModule::copy_event_args`: same cache-reuse scheme as
`copy_event_name`, applied to the args region, with the raw payload
(no NUL terminator). -/
def copy_event_args {σ : Type} (m : ScriptModule σ) (event_args : Bytes) : Out σ (Nat × Nat) :=
  let bytes := event_args
  let args := m.event_allocs.args
  if args.1 = 0 ∨ args.2 < bytes.length then
    let o := alloc_bytes m bytes
    match o.res with
    | .error e => ⟨o.trace, o.m, .error e⟩
    | .ok new =>
      if args.1 ≠ 0 then
        let o2 := free_bytes o.m args
        match o2.res with
        | .error e => ⟨o.trace ++ o2.trace, o2.m, .error e⟩
        | .ok _ => ⟨o.trace ++ o2.trace, o2.m, .ok new⟩
      else ⟨o.trace, o.m, .ok new⟩
  else
    let w := m.guest.memWrite m.st args.1 bytes
    let m1 := { m with st := w.1 }
    if w.2 then ⟨[], m1, .ok (args.1, bytes.length)⟩
    else ⟨[], m1, .error .memWriteFail⟩

/-- `ScriptModule::copy_event_source`: the cache-reuse scheme applied to
the source region. -/
def copy_event_source {σ : Type} (m : ScriptModule σ) (event_source : Bytes) : Out σ (Nat × Nat) :=
  let bytes := toBytesWithNul event_source
  let source := m.event_allocs.source
  if source.1 = 0 ∨ source.2 < bytes.length then
    let o := alloc_bytes m bytes
    match o.res with
    | .error e => ⟨o.trace, o.m, .error e⟩
    | .ok new =>
      if source.1 ≠ 0 then
        let o2 := free_bytes o.m source
        match o2.res with
        | .error e => ⟨o.trace ++ o2.trace, o2.m, .error e⟩
        | .ok _ => ⟨o.trace ++ o2.trace, o2.m, .ok new⟩
      else ⟨o.trace, o.m, .ok new⟩
  else
    let w := m.guest.memWrite m.st source.1 bytes
    let m1 := { m with st := w.1 }
    if w.2 then ⟨[], m1, .ok (source.1, bytes.length)⟩
    else ⟨[], m1, .error .memWriteFail⟩

/-- Buffer of `n` zero bytes (the `[0; N]` literals of
`make_startup_allocs`). -/
def zeroBytes (n : Nat) : Bytes := List.replicate n 0

/-- `ScriptModule::make_startup_allocs`: allocate the three scratch
buffers (1024, 1 <<< 15 = 32768, 1024 bytes of zeros) and record them in
the cache, propagating the first failure. -/
def make_startup_allocs {σ : Type} (m : ScriptModule σ) : Out σ Unit :=
  let o1 := alloc_bytes m (zeroBytes 1024)
  match o1.res with
  | .error e => ⟨o1.trace, o1.m, .error e⟩
  | .ok nm =>
    let m1 := { o1.m with event_allocs := { o1.m.event_allocs with name := nm } }
    let o2 := alloc_bytes m1 (zeroBytes 32768)
    match o2.res with
    | .error e => ⟨o1.trace ++ o2.trace, o2.m, .error e⟩
    | .ok ar =>
      let m2 := { o2.m with event_allocs := { o2.m.event_allocs with args := ar } }
      let o3 := alloc_bytes m2 (zeroBytes 1024)
      match o3.res with
      | .error e => ⟨o1.trace ++ o2.trace ++ o3.trace, o3.m, .error e⟩
      | .ok sr =>
        ⟨o1.trace ++ o2.trace ++ o3.trace,
          { o3.m with event_allocs := { o3.m.event_allocs with source := sr } }, .ok ()⟩

/-- Outcome of the execution engine's compile+instantiate step on a byte
payload (`Module::new` / `Instance::new` / `Linker::instantiate` — the
external collaborator): failure, or an instantiated guest with its initial
store state. -/
inductive Instantiation (σ : Type) where
  | fail
  | ok (g : Guest σ) (s0 : σ)

/-- `ScriptModule::new` / `new_with_wasi` after instantiation: require the
guest export a linear memory named `memory` (else `No memory`), start from
the default (empty) `event_allocs` cache, and run `make_startup_allocs`,
propagating its failure. -/
def scriptModuleNew {σ : Type} (inst : Instantiation σ) :
    List GEvent × Except Err (ScriptModule σ) :=
  match inst with
  | .fail => ([], .error .instantiateFail)
  | .ok g s0 =>
    if g.hasMemory then
      let o := make_startup_allocs ⟨g, s0, EventAlloc.default⟩
      match o.res with
      | .error e => (o.trace, .error e)
      | .ok _ => (o.trace, .ok o.m)
    else ([], .error .noMemory)

/-- The `Runtime` of `lib.rs`: at most one loaded `ScriptModule` (the
`Engine` itself carries no state the host logic reads). -/
structure Runtime (σ : Type) where
  script : Option (ScriptModule σ)

/-- Result of a Runtime-level operation: trace of guest calls, Runtime
afterwards, and the operation's return value. -/
structure ROut (σ α : Type) where
  trace : List GEvent
  rt : Runtime σ
  res : α

/-- `Runtime::load_module`: build the `ScriptModule` (propagating failure
with the script slot untouched), store it in `self.script`, then, when the
guest exports `_start`, call it; a `_start` failure is returned as an
error, with the freshly stored module left in the script slot (the source
does not clear `self.script` on this path). -/
def load_module {σ : Type} (rt : Runtime σ) (inst : Instantiation σ) :
    ROut σ (Except Err Unit) :=
  match scriptModuleNew inst with
  | (tr, .error e) => ⟨tr, rt, .error e⟩
  | (tr, .ok script) =>
    match script.guest.start with
    | none => ⟨tr, ⟨some script⟩, .ok ()⟩
    | some startFn =>
      let r := startFn script.st
      let script1 := { script with st := r.1 }
      match r.2 with
      | none => ⟨tr ++ [.exportCall .start []], ⟨some script1⟩, .error (.trap .start)⟩
      | some _ => ⟨tr ++ [.exportCall .start []], ⟨some script1⟩, .ok ()⟩

/-- `Runtime::unload_module`: drop the script unconditionally. -/
def unload_module {σ : Type} (_rt : Runtime σ) : Runtime σ := ⟨none⟩

/-- `Runtime::trigger_event`: when a module is loaded and it has an event
handler, marshal name/args/source through the cache and call the handler
with `(nameOff, argsOff, argsLen, sourceOff)`; on any failure inside the
wrapper, clear the script slot and return the error. -/
def trigger_event {σ : Type} (rt : Runtime σ) (event_name args source : Bytes) :
    ROut σ (Except Err Unit) :=
  match rt.script with
  | none => ⟨[], rt, .ok ()⟩
  | some script =>
    match script.guest.onEvent with
    | none => ⟨[], ⟨some script⟩, .ok ()⟩
    | some handler =>
      let o1 := copy_event_name script event_name
      match o1.res with
      | .error e => ⟨o1.trace, ⟨none⟩, .error e⟩
      | .ok ev =>
        let o2 := copy_event_args o1.m args
        match o2.res with
        | .error e => ⟨o1.trace ++ o2.trace, ⟨none⟩, .error e⟩
        | .ok ag =>
          let o3 := copy_event_source o2.m source
          match o3.res with
          | .error e => ⟨o1.trace ++ o2.trace ++ o3.trace, ⟨none⟩, .error e⟩
          | .ok sr =>
            let r := handler o3.m.st ev.1 ag.1 ag.2 sr.1
            let tr := o1.trace ++ o2.trace ++ o3.trace ++
              [.exportCall .onEvent [ev.1, ag.1, ag.2, sr.1]]
            match r.2 with
            | none => ⟨tr, ⟨none⟩, .error (.trap .onEvent)⟩
            | some _ => ⟨tr, ⟨some { o3.m with st := r.1 }⟩, .ok ()⟩

/-- `Runtime::tick`: call the guest's `__cfx_on_tick` when present; on
failure clear the script slot and return the error; no-op otherwise. -/
def tick {σ : Type} (rt : Runtime σ) : ROut σ (Except Err Unit) :=
  match rt.script with
  | none => ⟨[], rt, .ok ()⟩
  | some script =>
    match script.guest.onTick with
    | none => ⟨[], ⟨some script⟩, .ok ()⟩
    | some f =>
      let r := f script.st
      match r.2 with
      | none => ⟨[.exportCall .onTick []], ⟨none⟩, .error (.trap .onTick)⟩
      | some _ => ⟨[.exportCall .onTick []], ⟨some { script with st := r.1 }⟩, .ok ()⟩

/-- Little-endian 32-bit read from guest memory.
Modelled from the spec: the `ScrObject` result descriptor (crate
`cfx_wasm_rt_types`, not under `src/`) is two little-endian 32-bit
unsigned fields `{ dataOffset, length }` at the given address; this reads
one such field. -/
def readU32 {σ : Type} (g : Guest σ) (s : σ) (addr : Nat) : Nat :=
  g.readByte s addr + 256 * g.readByte s (addr + 1) +
    65536 * g.readByte s (addr + 2) + 16777216 * g.readByte s (addr + 3)

/-- Result of `call_call_ref`: trace, module afterwards, the caller's
output buffer afterwards (`ret_buf`), and the returned length. -/
structure CallOut (σ : Type) where
  trace : List GEvent
  m : ScriptModule σ
  buf : Bytes
  res : Except Err Nat

/-- `call_call_ref` of `lib.rs`: require the memory export and the
`__cfx_call_ref` export; allocate a temporary guest buffer for the input;
call `__cfx_call_ref(refIdx, bufOff, argsLen)`; free the temporary buffer;
then propagate the call's failure if any.  A 0 return is "no value" with
`ret_buf` untouched; otherwise the return is the address of a result
descriptor: `ret_buf` is cleared, a descriptor with 0 offset or 0 length
is again "no value", and otherwise the described bytes are copied into
`ret_buf` and their count returned. -/
def call_call_ref {σ : Type} (script : ScriptModule σ) (ref_idx : Nat) (args ret_buf : Bytes) :
    CallOut σ :=
  if script.guest.hasMemory = false then ⟨[], script, ret_buf, .error .noMemory⟩
  else
    match script.guest.callRef with
    | none => ⟨[], script, ret_buf, .error (.noExport .callRef)⟩
    | some callRefFn =>
      let oa := alloc_bytes script args
      match oa.res with
      | .error e => ⟨oa.trace, oa.m, ret_buf, .error e⟩
      | .ok args_guest =>
        let r := callRefFn oa.m.st ref_idx args_guest.1 args.length
        let m1 := { oa.m with st := r.1 }
        let tr1 := oa.trace ++ [.exportCall .callRef [ref_idx, args_guest.1, args.length]]
        let og := free_bytes m1 args_guest
        let tr2 := tr1 ++ og.trace
        match og.res with
        | .error e => ⟨tr2, og.m, ret_buf, .error e⟩
        | .ok _ =>
          match r.2 with
          | none => ⟨tr2, og.m, ret_buf, .error (.trap .callRef)⟩
          | some scrobj =>
            if scrobj = 0 then ⟨tr2, og.m, ret_buf, .ok 0⟩
            else
              let dataOff := readU32 og.m.guest og.m.st scrobj
              let dataLen := readU32 og.m.guest og.m.st (scrobj + 4)
              if dataOff = 0 ∨ dataLen = 0 then ⟨tr2, og.m, [], .ok 0⟩
              else
                let slice := (List.range dataLen).map
                  (fun i => og.m.guest.readByte og.m.st (dataOff + i))
                ⟨tr2, og.m, slice, .ok slice.length⟩

/-- Result of `Runtime::call_ref`: trace, Runtime afterwards, output
buffer afterwards, and returned length. -/
structure RCallOut (σ : Type) where
  trace : List GEvent
  rt : Runtime σ
  buf : Bytes
  res : Except Err Nat

/-- `Runtime::call_ref`: `Ok(0)` with the buffer untouched when nothing is
loaded; otherwise run `call_call_ref`, clearing the script slot on its
failure. -/
def call_ref {σ : Type} (rt : Runtime σ) (ref_idx : Nat) (args ret_buf : Bytes) :
    RCallOut σ :=
  match rt.script with
  | none => ⟨[], rt, ret_buf, .ok 0⟩
  | some script =>
    let o := call_call_ref script ref_idx args ret_buf
    match o.res with
    | .error e => ⟨o.trace, ⟨none⟩, o.buf, .error e⟩
    | .ok v => ⟨o.trace, ⟨some o.m⟩, o.buf, .ok v⟩

/-- `Runtime::duplicate_ref`: call the guest's `__cfx_duplicate_ref` when
present and return its result; on failure clear the script slot and
return 0; return 0 when the export is absent or nothing is loaded. -/
def duplicate_ref {σ : Type} (rt : Runtime σ) (ref_idx : Nat) : ROut σ Nat :=
  match rt.script with
  | none => ⟨[], rt, 0⟩
  | some script =>
    match script.guest.dupRef with
    | none => ⟨[], ⟨some script⟩, 0⟩
    | some f =>
      let r := f script.st ref_idx
      match r.2 with
      | none => ⟨[.exportCall .duplicateRef [ref_idx]], ⟨none⟩, 0⟩
      | some v => ⟨[.exportCall .duplicateRef [ref_idx]], ⟨some { script with st := r.1 }⟩, v⟩

/-- `Runtime::remove_ref`: call the guest's `__cfx_remove_ref` when
present, ignoring its result; on failure clear the script slot; a silent
no-op when the export is absent or nothing is loaded. -/
def remove_ref {σ : Type} (rt : Runtime σ) (ref_idx : Nat) : ROut σ Unit :=
  match rt.script with
  | none => ⟨[], rt, ()⟩
  | some script =>
    match script.guest.removeRef with
    | none => ⟨[], ⟨some script⟩, ()⟩
    | some f =>
      let r := f script.st ref_idx
      match r.2 with
      | none => ⟨[.exportCall .removeRef [ref_idx]], ⟨none⟩, ()⟩
      | some _ => ⟨[.exportCall .removeRef [ref_idx]], ⟨some { script with st := r.1 }⟩, ()⟩

/-- `Runtime::memory_size`: the size of the guest's exported memory, or 0
when no module is loaded or the memory export is absent. -/
def memory_size {σ : Type} (rt : Runtime σ) : Nat :=
  match rt.script with
  | none => 0
  | some script => if script.guest.hasMemory then script.guest.memSize script.st else 0

/-- `fx_succeeded` of `lib.rs`: a 32-bit status succeeded when its most
significant bit is clear. -/
def fx_succeeded (result : Nat) : Bool := (result &&& 0x80000000) == 0

/-- One guest-facing Runtime operation, for stating policies uniformly
over the whole surface. -/
inductive Op where
  | trigger (name args source : Bytes)
  | tickOp
  | callRefOp (ref : Nat) (args ret_buf : Bytes)
  | dupOp (ref : Nat)
  | removeOp (ref : Nat)
  | memSizeOp
  | unloadOp
  deriving DecidableEq, Repr

/-- Run one operation on a Runtime, keeping the guest-call trace and the
resulting Runtime (`memSizeOp` reads, `unloadOp` drops). -/
def runOp {σ : Type} (rt : Runtime σ) : Op → List GEvent × Runtime σ
  | .trigger n a s => let o := trigger_event rt n a s; (o.trace, o.rt)
  | .tickOp => let o := tick rt; (o.trace, o.rt)
  | .callRefOp r a b => let o := call_ref rt r a b; (o.trace, o.rt)
  | .dupOp r => let o := duplicate_ref rt r; (o.trace, o.rt)
  | .removeOp r => let o := remove_ref rt r; (o.trace, o.rt)
  | .memSizeOp => ([], rt)
  | .unloadOp => ([], unload_module rt)

/-- Number of `__cfx_free` invocations for the buffer `(off, len)` in a
trace. -/
def countFrees (tr : List GEvent) (off len : Nat) : Nat :=
  (tr.filter (fun e => e = .freeCall off len 1)).length

/-- Number of `__cfx_alloc` invocations in a trace. -/
def countMallocs (tr : List GEvent) : Nat :=
  (tr.filter (fun e => match e with | .mallocCall _ _ => true | _ => false)).length

/-- The `__cfx_alloc` events of a trace, in order. -/
def mallocsOf (tr : List GEvent) : List GEvent :=
  tr.filter (fun e => match e with | .mallocCall _ _ => true | _ => false)

/-! Concrete guests for counterexamples and witnesses.  The guest state is
a bump-allocator pointer: `malloc` returns the current pointer (starting
nonzero) and advances it by the requested size; memory accesses always
succeed and reads return 0. -/

/-- Well-behaved concrete guest over state `Nat` (a bump pointer): every
export present and succeeding, `__cfx_call_ref` returning 0.  Allocations
return the current pointer and advance it by a fixed 1000 (so consecutive
offsets are distinct and nonzero, whatever the requested size). -/
def bumpGuest : Guest Nat where
  malloc := some fun s _ _ => (s + 1000, some s)
  free := some fun s _ _ _ => (s, some ())
  callRef := some fun s _ _ _ => (s, some 0)
  onEvent := some fun s _ _ _ _ => (s, some ())
  onTick := some fun s => (s, some ())
  start := none
  dupRef := some fun s r => (s, some (r + 1))
  removeRef := some fun s _ => (s, some 0)
  hasMemory := true
  readByte := fun _ _ => 0
  memWrite := fun s _ _ => (s, true)
  memSize := fun _ => 17

/-- Guest whose `_start` export traps. -/
def startTrapGuest : Guest Nat :=
  { bumpGuest with start := some fun s => (s, none) }

/-- Guest whose allocator export traps. -/
def mallocTrapGuest : Guest Nat :=
  { bumpGuest with malloc := some fun s _ _ => (s, none) }

/-- Guest whose event handler traps. -/
def onEventTrapGuest : Guest Nat :=
  { bumpGuest with onEvent := some fun s _ _ _ _ => (s, none) }

/-- Guest whose tick export traps. -/
def tickTrapGuest : Guest Nat :=
  { bumpGuest with onTick := some fun s => (s, none) }

/-- Guest whose `__cfx_call_ref` export traps. -/
def callRefTrapGuest : Guest Nat :=
  { bumpGuest with callRef := some fun s _ _ _ => (s, none) }

/-- Guest whose duplicate-ref and remove-ref exports trap. -/
def refTrapGuest : Guest Nat :=
  { bumpGuest with dupRef := some fun s _ => (s, none),
                   removeRef := some fun s _ => (s, none) }

/-- Guest exporting no duplicate-ref / remove-ref function. -/
def noRefGuest : Guest Nat :=
  { bumpGuest with dupRef := none, removeRef := none }

/-- The `event_allocs` cache a bump guest has right after loading: name at
16 (1024 bytes), args at 1016 (32768 bytes), source at 2016 (1024
bytes). -/
def loadedCache : EventAlloc := ⟨(16, 1024), (1016, 32768), (2016, 1024)⟩

/-- A loaded `ScriptModule` over the given concrete guest, in the state a
fresh load with bump pointer 16 produces. -/
def moduleOf (g : Guest Nat) : ScriptModule Nat := ⟨g, 3016, loadedCache⟩

/-- A Runtime holding `moduleOf g`. -/
def rtOf (g : Guest Nat) : Runtime Nat := ⟨some (moduleOf g)⟩

/-- An args payload one byte larger than the 32768-byte startup args
buffer. -/
def growPayload : Bytes := List.replicate 32769 7

/-! Supporting lemmas. -/

/-- Length of a zero buffer. -/
theorem zeroBytes_length (n : Nat) : (zeroBytes n).length = n := by
  simp [zeroBytes]

/-- Length of the oversized payload. -/
theorem growPayload_length : growPayload.length = 32769 := by
  rw [growPayload, List.length_replicate]

/-- Free counting distributes over trace concatenation. -/
theorem countFrees_append (t1 t2 : List GEvent) (off len : Nat) :
    countFrees (t1 ++ t2) off len = countFrees t1 off len + countFrees t2 off len := by
  simp [countFrees, List.filter_append]

/-- `alloc_bytes` never changes the guest record. -/
theorem alloc_bytes_guest {σ : Type} (m : ScriptModule σ) (b : Bytes) :
    (alloc_bytes m b).m.guest = m.guest := by
  simp only [alloc_bytes]
  split
  · rfl
  · split
    · rfl
    · split <;> rfl

/-- `alloc_bytes` never changes the allocation cache. -/
theorem alloc_bytes_allocs {σ : Type} (m : ScriptModule σ) (b : Bytes) :
    (alloc_bytes m b).m.event_allocs = m.event_allocs := by
  simp only [alloc_bytes]
  split
  · rfl
  · split
    · rfl
    · split <;> rfl

/-- A trace produced by `alloc_bytes` contains no deallocator call. -/
theorem alloc_bytes_countFrees {σ : Type} (m : ScriptModule σ) (b : Bytes) (off len : Nat) :
    countFrees (alloc_bytes m b).trace off len = 0 := by
  simp only [alloc_bytes]
  split
  · rfl
  · split
    · rfl
    · split <;> rfl

/-- On success, `alloc_bytes` returns a pair whose length is the payload
length. -/
theorem alloc_bytes_ok_len {σ : Type} (m : ScriptModule σ) (b : Bytes) (p : Nat × Nat)
    (h : (alloc_bytes m b).res = .ok p) : p.2 = b.length := by
  simp only [alloc_bytes] at h
  split at h
  · simp at h
  · split at h
    · simp at h
    · split at h
      · simp only [Except.ok.injEq] at h
        rw [← h]
      · simp at h

/-- On success, `alloc_bytes` made exactly one allocator call, for the
payload length. -/
theorem alloc_bytes_ok_trace {σ : Type} (m : ScriptModule σ) (b : Bytes) (p : Nat × Nat)
    (h : (alloc_bytes m b).res = .ok p) :
    (alloc_bytes m b).trace = [.mallocCall b.length 1] := by
  simp only [alloc_bytes] at h ⊢
  split at h
  · simp at h
  · split at h
    · simp at h
    · split at h <;> split <;> simp_all

/-- When the deallocator export is present, `free_bytes` calls it exactly
once, on the given pair. -/
theorem free_bytes_trace {σ : Type} (m : ScriptModule σ) (p : Nat × Nat)
    (f : σ → Nat → Nat → Nat → σ × Option Unit) (hfree : m.guest.free = some f) :
    (free_bytes m p).trace = [.freeCall p.1 p.2 1] := by
  simp only [free_bytes, hfree]
  split <;> rfl

/-- Allocator-call extraction distributes over trace concatenation. -/
theorem mallocsOf_append (t1 t2 : List GEvent) :
    mallocsOf (t1 ++ t2) = mallocsOf t1 ++ mallocsOf t2 := by
  simp [mallocsOf, List.filter_append]

/-- A successful `make_startup_allocs` made exactly the three startup
allocator calls, in order: 1024, 32768, 1024 bytes. -/
theorem make_startup_allocs_ok_trace {σ : Type} (m : ScriptModule σ)
    (h : (make_startup_allocs m).res = .ok ()) :
    (make_startup_allocs m).trace
      = [.mallocCall 1024 1, .mallocCall 32768 1, .mallocCall 1024 1] := by
  simp only [make_startup_allocs] at h ⊢
  split
  · rename_i e h1
    simp only [h1] at h
    simp at h
  · rename_i nm h1
    simp only [h1] at h
    split
    · rename_i e h2
      simp only [h2] at h
      simp at h
    · rename_i ar h2
      simp only [h2] at h
      split
      · rename_i e h3
        simp only [h3] at h
        simp at h
      · rename_i sr h3
        rw [alloc_bytes_ok_trace _ _ _ h1, alloc_bytes_ok_trace _ _ _ h2,
          alloc_bytes_ok_trace _ _ _ h3]
        simp [zeroBytes_length]

/-- When the cached args buffer exists and is large enough, `copy_event_args`
writes in place: no guest call, same module fields except the store state,
and the cached offset with the payload length is returned. -/
theorem copy_event_args_fit {σ : Type} (m : ScriptModule σ) (p : Bytes)
    (hoff : m.event_allocs.args.1 ≠ 0)
    (hfit : p.length ≤ m.event_allocs.args.2)
    (hw : (m.guest.memWrite m.st m.event_allocs.args.1 p).2 = true) :
    copy_event_args m p
      = ⟨[], { m with st := (m.guest.memWrite m.st m.event_allocs.args.1 p).1 },
          .ok (m.event_allocs.args.1, p.length)⟩ := by
  simp only [copy_event_args]
  rw [if_neg (by push_neg; exact ⟨hoff, hfit⟩)]
  rw [if_pos hw]

/-- When the payload exceeds the cached args capacity and the cached
offset is nonzero, `copy_event_args` allocates, frees the old buffer, and
returns the allocation result — without touching the cache entry. -/
theorem copy_event_args_grow {σ : Type} (m : ScriptModule σ) (p : Bytes) (q : Nat × Nat)
    (hbig : m.event_allocs.args.2 < p.length)
    (hoff : m.event_allocs.args.1 ≠ 0)
    (halloc : (alloc_bytes m p).res = .ok q)
    (hfreeok : (free_bytes (alloc_bytes m p).m m.event_allocs.args).res = .ok ()) :
    copy_event_args m p
      = ⟨(alloc_bytes m p).trace ++ (free_bytes (alloc_bytes m p).m m.event_allocs.args).trace,
          (free_bytes (alloc_bytes m p).m m.event_allocs.args).m, .ok q⟩ := by
  simp only [copy_event_args]
  rw [if_pos (Or.inr hbig)]
  simp only [halloc]
  rw [if_pos hoff]
  simp only [hfreeok]

/-! Claim theorems. -/

/-- C10: for every 32-bit unsigned input, `fx_succeeded` returns true
exactly when the most significant bit is 0, i.e. when the input is below
`0x80000000`. -/
theorem fx_succeeded_iff (result : Nat) (h : result < 2 ^ 32) :
    fx_succeeded result = true ↔ result < 0x80000000 := by
  have hand : result &&& 0x80000000 = (result.testBit 31).toNat * 2 ^ 31 := by
    have h31 : (0x80000000 : Nat) = 2 ^ 31 := by norm_num
    rw [h31, Nat.and_two_pow]
  have htb : result.testBit 31 = decide (result / 2 ^ 31 % 2 = 1) := Nat.testBit_to_div_mod
  have h32 : result < 4294967296 := by
    have : (2 : Nat) ^ 32 = 4294967296 := by norm_num
    omega
  simp only [fx_succeeded, beq_iff_eq, hand]
  rcases hb : result.testBit 31
  · have hd : ¬ result / 2147483648 % 2 = 1 := by
      rw [htb] at hb
      have h31 : (2 : Nat) ^ 31 = 2147483648 := by norm_num
      simpa [h31] using hb
    simp only [Bool.toNat_false, zero_mul]
    constructor
    · intro _
      omega
    · intro _
      trivial
  · have hd : result / 2147483648 % 2 = 1 := by
      rw [htb] at hb
      have h31 : (2 : Nat) ^ 31 = 2147483648 := by norm_num
      simpa [h31] using hb
    simp only [Bool.toNat_true, one_mul]
    constructor
    · intro hz
      exact absurd hz (by positivity)
    · intro hlt
      omega

/-- C10 witness: `fx_succeeded` at the concrete 32-bit inputs 7 and
`0x90000000`. -/
theorem fx_succeeded_iff_witness :
    (7 < 2 ^ 32 ∧ (fx_succeeded 7 = true ↔ 7 < 0x80000000)) ∧
    (0x90000000 < 2 ^ 32 ∧ (fx_succeeded 0x90000000 = true ↔ 0x90000000 < 0x80000000)) :=
  ⟨⟨by norm_num, fx_succeeded_iff 7 (by norm_num)⟩,
   ⟨by norm_num, fx_succeeded_iff 0x90000000 (by norm_num)⟩⟩

/-- C6: on a Runtime with no loaded module, `trigger_event` and `tick`
return success, `call_ref` returns `Ok 0` with the caller's buffer
untouched, `duplicate_ref` returns 0, `remove_ref` is a no-op that keeps
the empty state, and `memory_size` returns 0 — never an error. -/
theorem no_module_defaults {σ : Type} (n a s : Bytes) (r : Nat) (args rb : Bytes) :
    (trigger_event (⟨none⟩ : Runtime σ) n a s).res = .ok () ∧
    (tick (⟨none⟩ : Runtime σ)).res = .ok () ∧
    (call_ref (⟨none⟩ : Runtime σ) r args rb).res = .ok 0 ∧
    (call_ref (⟨none⟩ : Runtime σ) r args rb).buf = rb ∧
    (duplicate_ref (⟨none⟩ : Runtime σ) r).res = 0 ∧
    (remove_ref (⟨none⟩ : Runtime σ) r).rt.script = none ∧
    memory_size (⟨none⟩ : Runtime σ) = 0 :=
  ⟨rfl, rfl, rfl, rfl, rfl, rfl, rfl⟩

/-- C7: for `duplicate_ref`/`remove_ref` on a loaded module: an absent
guest export yields the silent default (0 / no-op, module kept, no guest
call); a present export whose invocation fails yields the same default to
the caller (and the module is dropped per the fault policy). -/
theorem ref_ops_absent_or_failed_defaults {σ : Type} (script : ScriptModule σ) (r : Nat) :
    (script.guest.dupRef = none →
      duplicate_ref ⟨some script⟩ r = ⟨[], ⟨some script⟩, 0⟩) ∧
    (script.guest.removeRef = none →
      remove_ref ⟨some script⟩ r = ⟨[], ⟨some script⟩, ()⟩) ∧
    (∀ f, script.guest.dupRef = some f → (f script.st r).2 = none →
      (duplicate_ref ⟨some script⟩ r).res = 0 ∧
      (duplicate_ref ⟨some script⟩ r).rt.script = none) ∧
    (∀ f, script.guest.removeRef = some f → (f script.st r).2 = none →
      (remove_ref ⟨some script⟩ r).res = () ∧
      (remove_ref ⟨some script⟩ r).rt.script = none) := by
  refine ⟨fun h => ?_, fun h => ?_, fun f hf ht => ?_, fun f hf ht => ?_⟩
  · simp [duplicate_ref, h]
  · simp [remove_ref, h]
  · simp [duplicate_ref, hf, ht]
  · simp [remove_ref, hf, ht]

/-- C1 counterexample: loading `startTrapGuest` (whose `_start` traps)
into an empty Runtime returns an error, yet the script slot is NOT empty
afterwards — the claim that no module remains loaded is false on the
code. -/
theorem load_module_start_fail_cex :
    (load_module (⟨none⟩ : Runtime Nat) (.ok startTrapGuest 16)).res.isOk = false ∧
    (load_module (⟨none⟩ : Runtime Nat) (.ok startTrapGuest 16)).rt.script.isSome = true :=
  ⟨rfl, rfl⟩

/-- C1 amended: when module construction succeeds but the guest's start
export fails, `load_module` returns the start error as a load error, but
the freshly instantiated module REMAINS in the Runtime's script slot
(with the store state the failing start call left behind); the slot is
not cleared. -/
theorem load_module_start_fail_keeps_module {σ : Type} (rt : Runtime σ) (g : Guest σ) (s0 : σ)
    (tr : List GEvent) (m : ScriptModule σ) (f : σ → σ × Option Unit)
    (hnew : scriptModuleNew (.ok g s0) = (tr, .ok m))
    (hstart : m.guest.start = some f)
    (htrap : (f m.st).2 = none) :
    (load_module rt (.ok g s0)).res = .error (.trap .start) ∧
    (load_module rt (.ok g s0)).rt.script = some { m with st := (f m.st).1 } := by
  simp only [load_module, hnew, hstart, htrap]
  refine ⟨?_, ?_⟩ <;> trivial

/-- C1 amended witness: the amended statement at the concrete trapping
guest `startTrapGuest`. -/
theorem load_module_start_fail_keeps_module_witness :
    (load_module (⟨none⟩ : Runtime Nat) (.ok startTrapGuest 16)).res
      = .error (.trap .start) ∧
    (load_module (⟨none⟩ : Runtime Nat) (.ok startTrapGuest 16)).rt.script
      = some ⟨startTrapGuest, 3016,
          ⟨(16, (zeroBytes 1024).length), (1016, (zeroBytes 32768).length),
            (2016, (zeroBytes 1024).length)⟩⟩ :=
  load_module_start_fail_keeps_module ⟨none⟩ startTrapGuest 16
    [.mallocCall (zeroBytes 1024).length 1, .mallocCall (zeroBytes 32768).length 1,
      .mallocCall (zeroBytes 1024).length 1]
    ⟨startTrapGuest, 3016,
      ⟨(16, (zeroBytes 1024).length), (1016, (zeroBytes 32768).length),
        (2016, (zeroBytes 1024).length)⟩⟩
    (fun s => (s, none)) rfl rfl rfl

/-- C8: a load that returns success made exactly three allocator calls —
1024 bytes (name), 32768 bytes (args), 1024 bytes (source), in that
order — before returning control; and when the guest has a memory export
but the startup allocation step fails, `load_module` fails with that
error. -/
theorem load_module_startup_allocs {σ : Type} (rt : Runtime σ) (g : Guest σ) (s0 : σ) :
    ((load_module rt (.ok g s0)).res = .ok () →
      mallocsOf (load_module rt (.ok g s0)).trace
        = [.mallocCall 1024 1, .mallocCall 32768 1, .mallocCall 1024 1]) ∧
    (∀ e, g.hasMemory = true →
      (make_startup_allocs ⟨g, s0, EventAlloc.default⟩).res = .error e →
      (load_module rt (.ok g s0)).res = .error e) := by
  constructor
  · intro hok
    rcases hN : scriptModuleNew (.ok g s0) with ⟨tr, res⟩
    rcases res with e | script
    · rw [load_module] at hok
      rw [hN] at hok
      simp at hok
    · have hN' := hN
      simp only [scriptModuleNew] at hN'
      rcases hmem : g.hasMemory
      · rw [hmem] at hN'
        simp at hN'
      · rw [hmem] at hN'
        simp only [if_pos rfl] at hN'
        rcases hM : (make_startup_allocs ⟨g, s0, EventAlloc.default⟩).res with e | u
        · simp only [hM] at hN'
          simp at hN'
        · cases u
          simp only [hM] at hN'
          have htr : (make_startup_allocs ⟨g, s0, EventAlloc.default⟩).trace = tr := by
            have h1 := congrArg Prod.fst hN'
            simpa using h1
          rw [load_module]
          rw [hN]
          rcases hS : script.guest.start with _ | f
          · simp only [hS]
            rw [← htr, make_startup_allocs_ok_trace _ hM]
            rfl
          · simp only [hS]
            rcases hr : (f script.st).2 with _ | u2
            · rw [load_module] at hok
              rw [hN] at hok
              simp only [hS, hr] at hok
              simp at hok
            · simp only [hr, mallocsOf_append]
              rw [← htr, make_startup_allocs_ok_trace _ hM]
              rfl
  · intro e hmem hM
    rw [load_module]
    simp only [scriptModuleNew, hmem, if_pos rfl, hM]
    simp

/-- C8 witness: the success half at the concrete `bumpGuest` and the
failure half at `mallocTrapGuest`, whose allocator traps. -/
theorem load_module_startup_allocs_witness :
    mallocsOf (load_module (⟨none⟩ : Runtime Nat) (.ok bumpGuest 16)).trace
      = [.mallocCall 1024 1, .mallocCall 32768 1, .mallocCall 1024 1] ∧
    (load_module (⟨none⟩ : Runtime Nat) (.ok mallocTrapGuest 16)).res
      = .error (.trap .alloc) :=
  ⟨(load_module_startup_allocs (⟨none⟩ : Runtime Nat) bumpGuest 16).1 rfl,
   (load_module_startup_allocs (⟨none⟩ : Runtime Nat) mallocTrapGuest 16).2
     (.trap .alloc) rfl rfl⟩

/-- C7 witness: the four branches at concrete guests — no ref exports
(`noRefGuest`) and trapping ref exports (`refTrapGuest`). -/
theorem ref_ops_absent_or_failed_defaults_witness :
    duplicate_ref ⟨some (moduleOf noRefGuest)⟩ 3 = ⟨[], ⟨some (moduleOf noRefGuest)⟩, 0⟩ ∧
    remove_ref ⟨some (moduleOf noRefGuest)⟩ 3 = ⟨[], ⟨some (moduleOf noRefGuest)⟩, ()⟩ ∧
    ((duplicate_ref ⟨some (moduleOf refTrapGuest)⟩ 3).res = 0 ∧
      (duplicate_ref ⟨some (moduleOf refTrapGuest)⟩ 3).rt.script = none) ∧
    ((remove_ref ⟨some (moduleOf refTrapGuest)⟩ 3).res = () ∧
      (remove_ref ⟨some (moduleOf refTrapGuest)⟩ 3).rt.script = none) :=
  ⟨(ref_ops_absent_or_failed_defaults (moduleOf noRefGuest) 3).1 rfl,
   (ref_ops_absent_or_failed_defaults (moduleOf noRefGuest) 3).2.1 rfl,
   (ref_ops_absent_or_failed_defaults (moduleOf refTrapGuest) 3).2.2.1 _ rfl rfl,
   (ref_ops_absent_or_failed_defaults (moduleOf refTrapGuest) 3).2.2.2 _ rfl rfl⟩

/-- C2 code-bug exhibit: on a freshly loaded module (args cache
`(1016, 32768)`) and a 32769-byte payload, `copy_event_args` allocates the
new buffer sized to the payload (offset 3016), frees the old buffer
exactly once, and returns the new pair — but the `event_allocs` cache
entry is left unchanged: it still records the old, freed buffer
`(1016, 32768)` instead of the new `(3016, 32769)`. -/
theorem copy_event_args_stale_cache :
    (copy_event_args (moduleOf bumpGuest) growPayload).res = .ok (3016, 32769) ∧
    countFrees (copy_event_args (moduleOf bumpGuest) growPayload).trace 1016 32768 = 1 ∧
    (copy_event_args (moduleOf bumpGuest) growPayload).m.event_allocs.args = (1016, 32768) := by
  have hgrow := copy_event_args_grow (moduleOf bumpGuest) growPayload
    (3016, growPayload.length)
    (by rw [growPayload_length]; decide) (by decide) rfl rfl
  rw [hgrow]
  have ha : (alloc_bytes (moduleOf bumpGuest) growPayload).trace
      = [.mallocCall growPayload.length 1] := rfl
  have hf : (free_bytes (alloc_bytes (moduleOf bumpGuest) growPayload).m
      (moduleOf bumpGuest).event_allocs.args).trace = [.freeCall 1016 32768 1] := rfl
  refine ⟨?_, ?_, ?_⟩
  · simp [growPayload_length]
  · rw [ha, hf]
    simp [countFrees]
  · rfl

/-- C9: cache policy for the args scratch buffer.  First: two consecutive
marshaling calls whose payloads are non-increasing and fit in the cache
both return the same cached offset and make no guest allocation.  Second:
a payload larger than the cache returns the fresh allocation's offset
(different from the cached one whenever the allocator returns a fresh
offset) and releases the old buffer exactly once. -/
theorem copy_event_args_cache_policy {σ : Type} (m : ScriptModule σ) (p1 p2 p : Bytes) :
    (m.event_allocs.args.1 ≠ 0 →
     p1.length ≤ m.event_allocs.args.2 →
     p2.length ≤ p1.length →
     (∀ s off b, (m.guest.memWrite s off b).2 = true) →
      (copy_event_args m p1).trace = [] ∧
      (copy_event_args m p1).res = .ok (m.event_allocs.args.1, p1.length) ∧
      (copy_event_args (copy_event_args m p1).m p2).trace = [] ∧
      (copy_event_args (copy_event_args m p1).m p2).res
        = .ok (m.event_allocs.args.1, p2.length)) ∧
    (∀ f q,
     m.event_allocs.args.1 ≠ 0 →
     m.event_allocs.args.2 < p.length →
     m.guest.free = some f →
     (alloc_bytes m p).res = .ok q →
     q.1 ≠ m.event_allocs.args.1 →
     (free_bytes (alloc_bytes m p).m m.event_allocs.args).res = .ok () →
      (copy_event_args m p).res = .ok q ∧
      q.1 ≠ m.event_allocs.args.1 ∧
      q.2 = p.length ∧
      countFrees (copy_event_args m p).trace m.event_allocs.args.1 m.event_allocs.args.2
        = 1) := by
  constructor
  · intro hoff h1 h2 hw
    have hc1 := copy_event_args_fit m p1 hoff h1 (hw _ _ _)
    have hc2 := copy_event_args_fit (copy_event_args m p1).m p2 (by rw [hc1]; exact hoff)
      (by rw [hc1]; exact le_trans h2 h1) (by rw [hc1]; exact hw _ _ _)
    rw [hc1] at hc2
    refine ⟨by rw [hc1], by rw [hc1], ?_, ?_⟩
    · rw [hc1]
      rw [hc2]
    · rw [hc1]
      rw [hc2]
  · intro f q hoff hbig hfree halloc hfresh hfreeok
    have hgrow := copy_event_args_grow m p q hbig hoff halloc hfreeok
    have hfree1 : (alloc_bytes m p).m.guest.free = some f := by
      rw [alloc_bytes_guest]
      exact hfree
    have hft := free_bytes_trace (alloc_bytes m p).m m.event_allocs.args f hfree1
    refine ⟨by rw [hgrow], hfresh, alloc_bytes_ok_len m p q halloc, ?_⟩
    rw [hgrow]
    simp only [countFrees_append, alloc_bytes_countFrees, hft]
    simp [countFrees]

/-- C9 witness: the fit half on two small payloads over the loaded bump
guest, and the grow half on the oversized payload. -/
theorem copy_event_args_cache_policy_witness :
    ((copy_event_args (moduleOf bumpGuest) [1, 2, 3]).trace = [] ∧
     (copy_event_args (moduleOf bumpGuest) [1, 2, 3]).res = .ok (1016, 3) ∧
     (copy_event_args (copy_event_args (moduleOf bumpGuest) [1, 2, 3]).m [4, 5]).trace = [] ∧
     (copy_event_args (copy_event_args (moduleOf bumpGuest) [1, 2, 3]).m [4, 5]).res
       = .ok (1016, 2)) ∧
    ((copy_event_args (moduleOf bumpGuest) growPayload).res
        = .ok (3016, growPayload.length) ∧
      (3016, growPayload.length).1 ≠ 1016 ∧
      (3016, growPayload.length).2 = growPayload.length ∧
      countFrees (copy_event_args (moduleOf bumpGuest) growPayload).trace 1016 32768 = 1) :=
  ⟨(copy_event_args_cache_policy (moduleOf bumpGuest) [1, 2, 3] [4, 5] growPayload).1
      (by decide) (by decide) (by decide) (fun _ _ _ => rfl),
   (copy_event_args_cache_policy (moduleOf bumpGuest) [1, 2, 3] [4, 5] growPayload).2
      (fun s _ _ _ => (s, some ())) (3016, growPayload.length)
      (by decide) (by rw [growPayload_length]; decide) rfl rfl (by decide) rfl⟩


/-- C3 counterexample: with the loaded bump guest (whose reference-call
export succeeds returning 0), `call_ref` returns length 0 but the
caller's output buffer `[7]` is left untouched — it is NOT cleared, so the
claim that the buffer is cleared is false on the code. -/
theorem call_ref_zero_buf_cex :
    (call_ref (rtOf bumpGuest) 5 [1, 2, 3] [7]).res = .ok 0 ∧
    (call_ref (rtOf bumpGuest) 5 [1, 2, 3] [7]).buf = [7] ∧
    (call_ref (rtOf bumpGuest) 5 [1, 2, 3] [7]).buf ≠ [] :=
  ⟨rfl, rfl, by decide⟩

/-- C3 amended: when the loaded guest's reference-call export succeeds and
returns 0, `call_ref` returns length 0 and leaves the caller's output
buffer exactly as it was (it is not cleared — clearing happens only on the
non-zero-descriptor path), and the module stays loaded. -/
theorem call_ref_zero_leaves_buf {σ : Type} (rt : Runtime σ) (script : ScriptModule σ)
    (cf : σ → Nat → Nat → Nat → σ × Option Nat) (ref : Nat) (args rb : Bytes) (p : Nat × Nat)
    (hs : rt.script = some script)
    (hmem : script.guest.hasMemory = true)
    (hcf : script.guest.callRef = some cf)
    (halloc : (alloc_bytes script args).res = .ok p)
    (hfreeok : (free_bytes { (alloc_bytes script args).m with
        st := (cf (alloc_bytes script args).m.st ref p.1 args.length).1 } p).res = .ok ())
    (hzero : (cf (alloc_bytes script args).m.st ref p.1 args.length).2 = some 0) :
    (call_ref rt ref args rb).res = .ok 0 ∧
    (call_ref rt ref args rb).buf = rb ∧
    (call_ref rt ref args rb).rt.script.isSome = true := by
  have hcc : call_call_ref script ref args rb
      = ⟨(alloc_bytes script args).trace ++ [.exportCall .callRef [ref, p.1, args.length]]
            ++ (free_bytes { (alloc_bytes script args).m with
              st := (cf (alloc_bytes script args).m.st ref p.1 args.length).1 } p).trace,
          (free_bytes { (alloc_bytes script args).m with
            st := (cf (alloc_bytes script args).m.st ref p.1 args.length).1 } p).m,
          rb, .ok 0⟩ := by
    simp only [call_call_ref, hmem]
    rw [if_neg (by simp)]
    simp only [hcf, halloc, hfreeok, hzero]
    rw [if_pos trivial]
  simp only [call_ref, hs, hcc]
  refine ⟨?_, ?_, ?_⟩ <;> trivial

/-- C3 amended witness: the amended statement at the loaded bump guest
with input `[1, 2, 3]` and output buffer `[7]`. -/
theorem call_ref_zero_leaves_buf_witness :
    (call_ref (rtOf bumpGuest) 5 [1, 2, 3] [7]).res = .ok 0 ∧
    (call_ref (rtOf bumpGuest) 5 [1, 2, 3] [7]).buf = [7] ∧
    (call_ref (rtOf bumpGuest) 5 [1, 2, 3] [7]).rt.script.isSome = true :=
  call_ref_zero_leaves_buf (rtOf bumpGuest) (moduleOf bumpGuest)
    (fun s _ _ _ => (s, some 0)) 5 [1, 2, 3] [7] (3016, 3) rfl rfl rfl rfl rfl rfl

/-- C4: on a loaded module with allocator, deallocator and reference-call
exports, once the temporary input buffer is allocated, `call_call_ref`
invokes the guest deallocator on it exactly once — whether the
reference-call export succeeds, fails, or returns no result. -/
theorem call_call_ref_frees_input_once {σ : Type} (script : ScriptModule σ)
    (cf : σ → Nat → Nat → Nat → σ × Option Nat)
    (f : σ → Nat → Nat → Nat → σ × Option Unit)
    (ref : Nat) (args rb : Bytes) (p : Nat × Nat)
    (hmem : script.guest.hasMemory = true)
    (hcf : script.guest.callRef = some cf)
    (hfree : script.guest.free = some f)
    (halloc : (alloc_bytes script args).res = .ok p) :
    countFrees (call_call_ref script ref args rb).trace p.1 p.2 = 1 := by
  have hfree1 : (alloc_bytes script args).m.guest.free = some f := by
    rw [alloc_bytes_guest]
    exact hfree
  have hog := free_bytes_trace
    (⟨(alloc_bytes script args).m.guest,
      (cf (alloc_bytes script args).m.st ref p.1 args.length).1,
      (alloc_bytes script args).m.event_allocs⟩ : ScriptModule σ) p f hfree1
  simp only [call_call_ref, hmem]
  rw [if_neg (by simp)]
  simp only [hcf, halloc]
  split <;> (try split) <;> (try split) <;> (try split) <;>
    (rw [countFrees_append, countFrees_append, alloc_bytes_countFrees, hog]; simp [countFrees])

/-- C4 witness: the fact at the loaded bump guest (reference call
succeeds) and at the trapping-reference-call guest (call fails); in both
runs the temporary buffer `(3016, 3)` is freed exactly once. -/
theorem call_call_ref_frees_input_once_witness :
    countFrees (call_call_ref (moduleOf bumpGuest) 5 [1, 2, 3] []).trace 3016 3 = 1 ∧
    countFrees (call_call_ref (moduleOf callRefTrapGuest) 5 [1, 2, 3] []).trace 3016 3 = 1 :=
  ⟨call_call_ref_frees_input_once (moduleOf bumpGuest) (fun s _ _ _ => (s, some 0))
      (fun s _ _ _ => (s, some ())) 5 [1, 2, 3] [] (3016, 3) rfl rfl rfl rfl,
   call_call_ref_frees_input_once (moduleOf callRefTrapGuest) (fun s _ _ _ => (s, none))
      (fun s _ _ _ => (s, some ())) 5 [1, 2, 3] [] (3016, 3) rfl rfl rfl rfl⟩

/-- A `trigger_event` that returns an error leaves the script slot
empty. -/
theorem trigger_event_error_clears {σ : Type} (rt : Runtime σ) (n a s : Bytes) (e : Err)
    (h : (trigger_event rt n a s).res = .error e) :
    (trigger_event rt n a s).rt.script = none := by
  rcases hsc : rt.script with _ | script
  · simp only [trigger_event, hsc] at h
    simp at h
  · simp only [trigger_event, hsc] at h ⊢
    split
    · rename_i heq
      simp only [heq] at h
      simp at h
    · rename_i handler heq
      simp only [heq] at h
      split
      · rfl
      · rename_i ev heq1
        simp only [heq1] at h
        split
        · rfl
        · rename_i ag heq2
          simp only [heq2] at h
          split
          · rfl
          · rename_i sr heq3
            simp only [heq3] at h
            split
            · rfl
            · rename_i u heq4
              simp only [heq4] at h
              simp at h

/-- A `tick` that returns an error leaves the script slot empty. -/
theorem tick_error_clears {σ : Type} (rt : Runtime σ) (e : Err)
    (h : (tick rt).res = .error e) : (tick rt).rt.script = none := by
  rcases hsc : rt.script with _ | script
  · simp only [tick, hsc] at h
    simp at h
  · simp only [tick, hsc] at h ⊢
    split
    · rename_i heq
      simp only [heq] at h
      simp at h
    · rename_i f heq
      simp only [heq] at h
      split
      · rfl
      · rename_i u heq1
        simp only [heq1] at h
        simp at h

/-- A `call_ref` that returns an error leaves the script slot empty. -/
theorem call_ref_error_clears {σ : Type} (rt : Runtime σ) (r : Nat) (args rb : Bytes) (e : Err)
    (h : (call_ref rt r args rb).res = .error e) :
    (call_ref rt r args rb).rt.script = none := by
  rcases hsc : rt.script with _ | script
  · simp only [call_ref, hsc] at h
    simp at h
  · simp only [call_ref, hsc] at h ⊢
    split
    · rfl
    · rename_i v heq
      simp only [heq] at h
      simp at h

/-- C5: the fault-isolation policy.  Any failure surfaced by
`trigger_event`, `tick` or `call_ref`, and any trapping guest call inside
`duplicate_ref` or `remove_ref`, leaves the Runtime with no loaded
module; and on a Runtime with no module, every operation makes no guest
call at all and leaves the state moduleless (only a new `load_module` can
change that). -/
theorem fault_isolation_policy {σ : Type} (rt : Runtime σ) :
    (∀ n a s e, (trigger_event rt n a s).res = .error e →
      (trigger_event rt n a s).rt.script = none) ∧
    (∀ e, (tick rt).res = .error e → (tick rt).rt.script = none) ∧
    (∀ r args rb e, (call_ref rt r args rb).res = .error e →
      (call_ref rt r args rb).rt.script = none) ∧
    (∀ script f r, rt.script = some script → script.guest.dupRef = some f →
      (f script.st r).2 = none → (duplicate_ref rt r).rt.script = none) ∧
    (∀ script f r, rt.script = some script → script.guest.removeRef = some f →
      (f script.st r).2 = none → (remove_ref rt r).rt.script = none) ∧
    (∀ op, runOp (⟨none⟩ : Runtime σ) op = ([], ⟨none⟩)) := by
  refine ⟨fun n a s e h => trigger_event_error_clears rt n a s e h,
    fun e h => tick_error_clears rt e h,
    fun r args rb e h => call_ref_error_clears rt r args rb e h,
    fun script f r hsc hf ht => ?_, fun script f r hsc hf ht => ?_, fun op => ?_⟩
  · simp [duplicate_ref, hsc, hf, ht]
  · simp [remove_ref, hsc, hf, ht]
  · rcases op <;> rfl

/-- C5 witness: each fault branch at a concrete trapping guest, and the
quiescence of the empty Runtime. -/
theorem fault_isolation_policy_witness :
    (trigger_event (rtOf onEventTrapGuest) [1] [2] [3]).rt.script = none ∧
    (tick (rtOf tickTrapGuest)).rt.script = none ∧
    (call_ref (rtOf callRefTrapGuest) 5 [1] []).rt.script = none ∧
    (duplicate_ref (rtOf refTrapGuest) 3).rt.script = none ∧
    (remove_ref (rtOf refTrapGuest) 3).rt.script = none ∧
    runOp (⟨none⟩ : Runtime Nat) .tickOp = ([], ⟨none⟩) :=
  ⟨(fault_isolation_policy (rtOf onEventTrapGuest)).1 [1] [2] [3] (.trap .onEvent) rfl,
   (fault_isolation_policy (rtOf tickTrapGuest)).2.1 (.trap .onTick) rfl,
   (fault_isolation_policy (rtOf callRefTrapGuest)).2.2.1 5 [1] [] (.trap .callRef) rfl,
   (fault_isolation_policy (rtOf refTrapGuest)).2.2.2.1 _ _ 3 rfl rfl rfl,
   (fault_isolation_policy (rtOf refTrapGuest)).2.2.2.2.1 _ _ 3 rfl rfl rfl,
   (fault_isolation_policy (⟨none⟩ : Runtime Nat)).2.2.2.2.2 .tickOp⟩

end WasmRt
